import Mathlib

/-!
Verification development for the background discovery/capability-probing
orchestrator of the smarttub-mqtt repository.

Shallow embedding of:
  - src/core/discovery_state.py   (DiscoveryStatus, DiscoveryMode, DiscoveryProgress,
                                   DiscoveryResults, DiscoveryState, DiscoveryStateManager)
  - src/core/background_discovery.py (BackgroundDiscoveryRunner: start/stop/loop, YAML merge)
  - src/core/discovery_coordinator.py (DiscoveryCoordinator start/stop facade)
  - src/core/item_prober.py       (ItemProber: phased light-mode probing, cleanup)

Python floats are modelled as exact rationals; Python's round(x, 1)
(round-half-to-even) is modelled exactly on the rationals.  Mutable Python
objects that matter for aliasing claims are modelled with an explicit heap of
addresses.  asyncio cancellation is modelled by truncating the sequence of
awaited operations at a suspension point; a block that is not protected by
try/finally does not run when an exception propagates past it.
-/

namespace SmarttubDiscovery

/-- Round half to even to the nearest integer (exact, on ℚ). -/
def halfEvenInt (y : ℚ) : ℤ :=
  let f : ℤ := ⌊y⌋
  let r : ℚ := y - (f : ℚ)
  if r < 1/2 then f
  else if 1/2 < r then f + 1
  else if f % 2 = 0 then f else f + 1

/-- Python round(x, 1): round half to even, one decimal digit (exact, on ℚ). -/
def pyRound1 (x : ℚ) : ℚ :=
  ((halfEvenInt (x * 10) : ℤ) : ℚ) / 10

/-- discovery_state.py: class DiscoveryStatus(str, Enum). -/
inductive DiscoveryStatus where
  | idle
  | running
  | completed
  | failed
deriving DecidableEq, Repr

/-- discovery_state.py: class DiscoveryMode(str, Enum). -/
inductive DiscoveryMode where
  | full
  | quick
  | yaml_only
deriving DecidableEq, Repr

/-- discovery_state.py: @dataclass DiscoveryProgress (percentage is a float,
modelled as ℚ; counters are ints, only ever set to non-negative values). -/
structure DiscoveryProgress where
  current_spa : Option String := none
  current_light : Option String := none
  lights_total : Nat := 0
  lights_tested : Nat := 0
  modes_total : Nat := 0
  modes_tested : Nat := 0
  percentage : ℚ := 0
deriving DecidableEq, Repr

/-- DiscoveryProgress.calculate_percentage:
if modes_total == 0 return 0.0 else round((modes_tested / modes_total) * 100, 1). -/
def DiscoveryProgress.calculate_percentage (p : DiscoveryProgress) : ℚ :=
  if p.modes_total = 0 then 0
  else pyRound1 (((p.modes_tested : ℚ) / (p.modes_total : ℚ)) * 100)

/-- DiscoveryProgress.update_percentage: self.percentage = self.calculate_percentage(). -/
def DiscoveryProgress.update_percentage (p : DiscoveryProgress) : DiscoveryProgress :=
  { p with percentage := p.calculate_percentage }

/-- background_discovery.py builds per-spa results dicts
{"spa_id": ..., "lights": [{"id", "zone", "detected_modes"}]}. -/
structure LightResult where
  id : String
  zone : Nat
  detected_modes : List String
deriving DecidableEq, Repr

/-- One spa's entry in the runner's in-memory results tree. -/
structure SpaResult where
  spa_id : String
  lights : List LightResult
deriving DecidableEq, Repr

/-- discovery_state.py: @dataclass DiscoveryResults.  The spas field is the
runner's results["spas"] dict (spa_id -> per-spa findings). -/
structure DiscoveryResults where
  spas : List (String × SpaResult) := []
  yaml_path : Option String := none
  total_lights : Nat := 0
  total_modes_detected : Nat := 0
deriving DecidableEq, Repr

/-- discovery_state.py: @dataclass DiscoveryState.  Timestamps are opaque
clock values (Nat). -/
structure DiscoveryState where
  status : DiscoveryStatus := .idle
  mode : Option DiscoveryMode := none
  started_at : Option Nat := none
  completed_at : Option Nat := none
  progress : DiscoveryProgress := {}
  results : Option DiscoveryResults := none
  error : Option String := none
deriving DecidableEq, Repr

/-- The keyword arguments of DiscoveryStateManager.update_progress: a field is
`some v` exactly when the caller passed a non-None value, in which case the
key is put into the progress-updates dict. -/
structure ProgressUpdates where
  current_spa : Option String := none
  current_light : Option String := none
  lights_total : Option Nat := none
  lights_tested : Option Nat := none
  modes_total : Option Nat := none
  modes_tested : Option Nat := none
deriving DecidableEq, Repr

/-- DiscoveryStateManager.update_state, progress branch, dict form (the only
form the runner uses): merge each present key into the progress object with
setattr, then recalculate the percentage. -/
def applyProgressUpdates (p : DiscoveryProgress) (u : ProgressUpdates) : DiscoveryProgress :=
  let p1 : DiscoveryProgress :=
    { current_spa := match u.current_spa with
        | some v => some v
        | none => p.current_spa
      current_light := match u.current_light with
        | some v => some v
        | none => p.current_light
      lights_total := u.lights_total.getD p.lights_total
      lights_tested := u.lights_tested.getD p.lights_tested
      modes_total := u.modes_total.getD p.modes_total
      modes_tested := u.modes_tested.getD p.modes_tested
      percentage := p.percentage }
  p1.update_percentage

/-- The updates dict accepted by DiscoveryStateManager.update_state: a field is
`some v` exactly when the corresponding key is present in the dict (a present
key may carry None, e.g. "error": None in start_discovery). -/
structure StateUpdates where
  status : Option DiscoveryStatus := none
  mode : Option (Option DiscoveryMode) := none
  started_at : Option (Option Nat) := none
  completed_at : Option (Option Nat) := none
  error : Option (Option String) := none
  progress : Option ProgressUpdates := none
  results : Option (Option DiscoveryResults) := none
deriving DecidableEq, Repr

/-- DiscoveryStateManager.update_state (body under the lock): each present key
overwrites the corresponding field; a progress dict is merged and the
percentage recalculated. -/
def applyStateUpdates (s : DiscoveryState) (u : StateUpdates) : DiscoveryState :=
  { status := u.status.getD s.status
    mode := u.mode.getD s.mode
    started_at := u.started_at.getD s.started_at
    completed_at := u.completed_at.getD s.completed_at
    progress := match u.progress with
      | some pu => applyProgressUpdates s.progress pu
      | none => s.progress
    results := u.results.getD s.results
    error := u.error.getD s.error }

/-- DiscoveryState.reset: back to the initial idle value. -/
def DiscoveryState.resetState : DiscoveryState := {}

/-! ## BackgroundDiscoveryRunner / DiscoveryCoordinator transition model

background_discovery.py and discovery_coordinator.py.  The runner owns an
asyncio task (modelled as the boolean `task`: the task object exists and is
not done), a stop event, and the state manager's DiscoveryState.  All
coordinator entry points run under the coordinator lock, so start/stop are
modelled as atomic transitions; the background task's own terminal write
(Completed or Failed) is an independent transition. -/

/-- The structured {"success": ..., "error": ...} result dicts returned by
start_discovery / stop_discovery. -/
structure OpResult where
  success : Bool
  error : Option String := none
deriving DecidableEq, Repr

/-- Runner-plus-state-manager configuration. -/
structure RunnerState where
  task : Bool := false
  stop_event : Bool := false
  state : DiscoveryState := {}
deriving DecidableEq, Repr

/-- BackgroundDiscoveryRunner.is_running: self._task is not None and not self._task.done(). -/
def is_running (s : RunnerState) : Bool := s.task

/-- The update dict written by start_discovery: status RUNNING, mode, started_at,
"error": None (key present with value None). -/
def startUpdates (m : DiscoveryMode) (t : Nat) : StateUpdates :=
  { status := some .running
    mode := some (some m)
    started_at := some (some t)
    error := some none }

/-- Effect of a successful start_discovery: clear the stop event, write the
running update, spawn the background task. -/
def applyStart (s : RunnerState) (m : DiscoveryMode) (t : Nat) : RunnerState :=
  { task := true
    stop_event := false
    state := applyStateUpdates s.state (startUpdates m t) }

/-- BackgroundDiscoveryRunner.start_discovery (under _start_lock): rejected with
"Discovery already running" while the task is active, otherwise starts. -/
def runner_start (s : RunnerState) (m : DiscoveryMode) (t : Nat) : OpResult × RunnerState :=
  if is_running s then
    ({ success := false, error := some "Discovery already running" }, s)
  else
    ({ success := true }, applyStart s m t)

/-- The ways the background task _run_discovery_loop can finish:
  - stopReturn: a stop-signal checkpoint fired and the loop returned with no
    terminal state write;
  - completed: results were saved and the Completed update written;
  - failed: an exception reached the top-level handler, the Failed update written;
  - cancelledByTimeout: stop_discovery's 10s wait elapsed and the task was
    cancelled hard (no terminal state write). -/
inductive TaskEnd where
  | stopReturn
  | completed (r : DiscoveryResults) (t : Nat)
  | failed (e : String) (t : Nat)
  | cancelledByTimeout
deriving DecidableEq, Repr

/-- State written when the background task finishes with the given outcome. -/
def applyTaskEnd (s : RunnerState) : TaskEnd → RunnerState
  | .stopReturn => { s with task := false }
  | .cancelledByTimeout => { s with task := false }
  | .completed r t =>
      { s with task := false
               state := applyStateUpdates s.state
                 { status := some .completed
                   completed_at := some (some t)
                   results := some (some r) } }
  | .failed e t =>
      { s with task := false
               state := applyStateUpdates s.state
                 { status := some .failed
                   completed_at := some (some t)
                   error := some (some e) } }

/-- BackgroundDiscoveryRunner.stop_discovery: rejected with "No discovery
running" when no task is active; otherwise sets the stop event, waits (up to
STOP_TIMEOUT_SECONDS, cancelling on timeout) for the task to end with some
outcome, and always finishes by writing status IDLE with the explanatory
note "Stopped by user". -/
def runner_stop (s : RunnerState) (ending : TaskEnd) : OpResult × RunnerState :=
  if is_running s then
    let s1 : RunnerState := { s with stop_event := true }
    let s2 := applyTaskEnd s1 ending
    let idleState := applyStateUpdates s2.state
      { status := some .idle, error := some (some "Stopped by user") }
    ({ success := true }, { s2 with state := idleState })
  else
    ({ success := false, error := some "No discovery running" }, s)

/-- background_discovery.py: timeout of asyncio.wait_for in stop_discovery. -/
def STOP_TIMEOUT_SECONDS : Nat := 10

/-- discovery_coordinator.py: DiscoveryMode(mode) succeeds exactly on the three
enum values "full", "quick", "yaml_only". -/
def parseDiscoveryMode (name : String) : Option DiscoveryMode :=
  if name = "full" then some .full
  else if name = "quick" then some .quick
  else if name = "yaml_only" then some .yaml_only
  else none

/-- DiscoveryCoordinator.start_discovery (under the coordinator lock): validate
the mode name (ValueError -> "Invalid mode: ..."), reject when the runner is
already running, otherwise delegate to runner.start_discovery. -/
def coordinator_start (s : RunnerState) (modeName : String) (t : Nat) :
    OpResult × RunnerState :=
  match parseDiscoveryMode modeName with
  | none =>
      ({ success := false
         error := some ("Invalid mode: " ++ modeName ++
           ". Use 'full', 'quick', or 'yaml_only'") }, s)
  | some m =>
      if is_running s then
        ({ success := false, error := some "Discovery already running" }, s)
      else
        runner_start s m t

/-- DiscoveryCoordinator.stop_discovery (under the coordinator lock): reject
with "No discovery running" when not running, otherwise delegate. -/
def coordinator_stop (s : RunnerState) (ending : TaskEnd) : OpResult × RunnerState :=
  if is_running s then runner_stop s ending
  else ({ success := false, error := some "No discovery running" }, s)

/-- Initial configuration: state manager constructed with the default idle
state, no task, stop event clear. -/
def initRunner : RunnerState := {}

/-- One observable transition of the coordinator/runner/state-manager system:
a successful coordinator start, a spontaneous terminal write by the background
task (completion or failure), a coordinator stop (signal + task end + idle
write, atomic under the coordinator lock), or a coordinator reset (allowed
only while not running). -/
inductive RunnerStep : RunnerState → RunnerState → Prop
  | start (s : RunnerState) (m : DiscoveryMode) (t : Nat) :
      is_running s = false → RunnerStep s (applyStart s m t)
  | taskCompleted (s : RunnerState) (r : DiscoveryResults) (t : Nat) :
      is_running s = true → RunnerStep s (applyTaskEnd s (.completed r t))
  | taskFailed (s : RunnerState) (e : String) (t : Nat) :
      is_running s = true → RunnerStep s (applyTaskEnd s (.failed e t))
  | stop (s : RunnerState) (ending : TaskEnd) :
      is_running s = true → RunnerStep s (runner_stop s ending).2
  | reset (s : RunnerState) :
      is_running s = false → RunnerStep s { s with state := DiscoveryState.resetState }

/-- Configurations reachable from process start. -/
inductive ReachableRunner : RunnerState → Prop
  | init : ReachableRunner initRunner
  | step {s s' : RunnerState} :
      ReachableRunner s → RunnerStep s s' → ReachableRunner s'

/-! ## Persisted YAML document and _save_results_to_yaml merge

background_discovery.py, _save_results_to_yaml.  The on-disk document is a
dict {"discovered_items": {spa_id: {"lights": [light entry, ...], ...other
keys}}}; each light entry is a dict with "id", "detected_modes" and arbitrary
other keys ("raw", ...).  Unrelated values are modelled as opaque strings. -/

/-- One light entry of the persisted document: id, detected_modes, and every
other key of the dict (e.g. "raw") as opaque key/value pairs. -/
structure LightEntry where
  id : String
  detected_modes : List String
  extra : List (String × String) := []
deriving DecidableEq, Repr

/-- One spa entry: the "lights" list plus every other key of the per-spa dict
(e.g. "pumps", "reminders") as opaque key/value pairs. -/
structure SpaEntry where
  lights : List LightEntry := []
  extra : List (String × String) := []
deriving DecidableEq, Repr

/-- The whole persisted document: the "discovered_items" mapping plus any
other top-level keys. -/
structure YamlDoc where
  discovered_items : List (String × SpaEntry) := []
  extra : List (String × String) := []
deriving DecidableEq, Repr

/-- Inner loop of the merge: find the first existing light entry with this id
and overwrite only its detected_modes, preserving every other field; report
whether a matching entry was found. -/
def setDetectedModes (lid : String) (modes : List String) :
    List LightEntry → List LightEntry × Bool
  | [] => ([], false)
  | el :: rest =>
      if el.id = lid then ({ el with detected_modes := modes } :: rest, true)
      else
        let (rest', found) := setDetectedModes lid modes rest
        (el :: rest', found)

/-- Per-spa part of the merge: for each light of this run, update the matching
existing entry's detected_modes; append a fresh {"id", "detected_modes"} entry
when no existing entry matches. -/
def mergeSpaLights (existing : List LightEntry) (newLights : List LightResult) :
    List LightEntry :=
  newLights.foldl
    (fun ls nl =>
      let (ls', found) := setDetectedModes nl.id nl.detected_modes ls
      if found then ls' else ls' ++ [{ id := nl.id, detected_modes := nl.detected_modes }])
    existing

/-- Association-list read with a default, mirroring dict.get(key, default). -/
def lookupSpaEntry (doc : List (String × SpaEntry)) (sid : String) : SpaEntry :=
  match doc.find? (fun kv => kv.1 = sid) with
  | some kv => kv.2
  | none => {}

/-- Association-list write: overwrite the first binding of the key, or append
a new binding. -/
def storeSpaEntry (doc : List (String × SpaEntry)) (sid : String) (e : SpaEntry) :
    List (String × SpaEntry) :=
  if doc.any (fun kv => kv.1 = sid) then
    doc.map (fun kv => if kv.1 = sid then (sid, e) else kv)
  else
    doc ++ [(sid, e)]

/-- _save_results_to_yaml, merge part: for each spa of this run, ensure its
entry exists, merge the run's lights into the entry's "lights" list, and
store the list back; every other key of the document is untouched. -/
def saveResultsMerge (doc : YamlDoc) (results : List (String × SpaResult)) : YamlDoc :=
  { doc with
    discovered_items :=
      results.foldl
        (fun items kv =>
          let spaEntry := lookupSpaEntry items kv.1
          let lights' := mergeSpaLights spaEntry.lights kv.2.lights
          storeSpaEntry items kv.1 { spaEntry with lights := lights' })
        doc.discovered_items }

/-- _save_results_to_yaml, load part: a missing file, a file that parses to
None, a parse error, or a document without the "discovered_items" key all
yield the fresh empty document (read failures are non-fatal);
`some (some d)` models a well-formed existing file. -/
def loadExistingData (readOutcome : Option (Option YamlDoc)) : YamlDoc :=
  match readOutcome with
  | some (some d) => d
  | _ => {}

/-! ## The discovery loop's per-spa light results and the run's finish

background_discovery.py, _run_discovery_loop.  A spa is modelled by its id and
the zones of the lights that spa.get_lights() returns; _test_light_mode's
verdict is a device-behaviour function. -/

/-- One light as returned by spa.get_lights(). -/
structure LightDev where
  zone : Nat
deriving DecidableEq, Repr

/-- One spa of the account. -/
structure SpaDev where
  id : String
  lights : List LightDev := []
deriving DecidableEq, Repr

/-- The mode lists of mode_configs: "all" resolves to the SpaLight.LightMode
names; QUICK tests four modes; YAML_ONLY tests none. -/
def modesToTest : DiscoveryMode → List String
  | .full => ["OFF", "PURPLE", "ORANGE", "RED", "YELLOW", "GREEN", "AQUA", "BLUE",
      "WHITE", "AMBER", "HIGH_SPEED_COLOR_WHEEL", "HIGH_SPEED_WHEEL",
      "LOW_SPEED_WHEEL", "FULL_DYNAMIC_RGB", "AUTO_TIMER_EXTERIOR",
      "PARTY", "COLOR_WHEEL", "ON"]
  | .quick => ["OFF", "ON", "PURPLE", "WHITE"]
  | .yaml_only => []

/-- mode_configs[mode]["test_modes"]. -/
def testModesEnabled : DiscoveryMode → Bool
  | .full => true
  | .quick => true
  | .yaml_only => false

/-- Per-light body of the discovery loop: light_results starts with
detected_modes = [] and, only when the mode tests are enabled, appends each
mode that _test_light_mode verifies (verdict gives that call's result). -/
def lightLoopResult (mode : DiscoveryMode) (verdict : Nat → String → Bool)
    (l : LightDev) : LightResult :=
  { id := "zone_" ++ toString l.zone
    zone := l.zone
    detected_modes :=
      if testModesEnabled mode then
        (modesToTest mode).filter (fun m => verdict l.zone m)
      else [] }

/-- Per-spa body of the discovery loop: a spa whose get_lights() comes back
empty is skipped ("No lights found"); otherwise every light is processed. -/
def spaLoopResults (mode : DiscoveryMode) (verdict : Nat → String → Bool)
    (spas : List SpaDev) : List (String × SpaResult) :=
  spas.foldl
    (fun acc spa =>
      if spa.lights.isEmpty then acc
      else acc ++ [(spa.id, { spa_id := spa.id
                              lights := spa.lights.map (lightLoopResult mode verdict) })])
    []

/-- Tail of _run_discovery_loop, after all spas are processed: try to save the
results to YAML and write the Completed update; _save_results_to_yaml
re-raises a write failure, so the top-level exception handler writes the
Failed update instead (results are not stored).  `writeFailure` is the str(e)
of the failed write, `none` when the write succeeds. -/
def runFinish (st : DiscoveryState) (r : DiscoveryResults) (t : Nat)
    (writeFailure : Option String) : DiscoveryState :=
  match writeFailure with
  | none =>
      applyStateUpdates st
        { status := some .completed
          completed_at := some (some t)
          results := some (some r) }
  | some e =>
      applyStateUpdates st
        { status := some .failed
          completed_at := some (some t)
          error := some (some e) }

/-! ## ItemProber: phased light-mode probing (item_prober.py)

_test_all_light_modes / _test_light_mode / _test_rgb_color_capability, as the
sequence of awaited device-API operations they issue for one zone.  The spa's
behaviour is a deterministic device model (whether a PATCH is rejected and
whether the read-back shows the requested mode); get_lights is modelled as
responsive, so the read-back retry loop collapses to a single read.  MQTT
progress publishes are not device-API calls and are not in the trace. -/

/-- One awaited device-API operation (or settling delay) of the prober. -/
inductive ApiCall where
  | patchLight (zone : Nat) (mode : String) (intensity : Nat)
  | patchModeOnly (zone : Nat) (mode : String)
  | patchColor (zone : Nat) (red green blue : Nat)
  | getLights
  | setModeFallback (zone : Nat) (mode : String) (intensity : Nat)
  | sleep (seconds : Nat)
deriving DecidableEq, Repr

/-- Device behaviour for one zone under test. -/
structure ProbeDevice where
  rejects : String → Nat → Bool
  shows : String → Nat → Bool
  offPatchFails : Bool := false

/-- item_prober.py: ItemProber.ALL_LIGHT_MODES. -/
def ALL_LIGHT_MODES : List String :=
  ["OFF", "PURPLE", "ORANGE", "RED", "YELLOW", "GREEN", "AQUA", "BLUE",
   "WHITE", "AMBER", "HIGH_SPEED_COLOR_WHEEL", "HIGH_SPEED_WHEEL",
   "LOW_SPEED_WHEEL", "FULL_DYNAMIC_RGB", "AUTO_TIMER_EXTERIOR",
   "PARTY", "COLOR_WHEEL", "ON"]

/-- item_prober.py: ItemProber.BRIGHTNESS_LEVELS. -/
def BRIGHTNESS_LEVELS : List Nat := [0, 25, 50, 75, 100]

/-- item_prober.py: ItemProber.LIGHT_TEST_DELAY_SECONDS. -/
def LIGHT_TEST_DELAY_SECONDS : Nat := 20

/-- item_prober.py, _test_light_mode: the fixed settle wait after the PATCH,
before the read-back ("Wait longer for API to propagate"). -/
def PATCH_SETTLE_SECONDS : Nat := 5

/-- ItemProber._test_light_mode: PATCH lights/zone with mode and intensity; an
APIError rejection returns False at once; otherwise wait the settle delay,
read the lights back and verify the zone now shows the requested mode
(brightness mismatch alone still counts as success in the source). -/
def proberTestLightMode (dev : ProbeDevice) (zone : Nat) (mode : String)
    (brightness : Nat) : List ApiCall × Bool :=
  if dev.rejects mode brightness then
    ([.patchLight zone mode brightness], false)
  else
    ([.patchLight zone mode brightness, .sleep PATCH_SETTLE_SECONDS, .getLights],
     dev.shows mode brightness)

/-- Phase 1 of _test_all_light_modes over a list of modes: each mode is tested
once at the canonical brightness (0 for OFF, 100 otherwise) with a pause
after each test; modes whose verification succeeds are the candidates. -/
def phase1Probe (dev : ProbeDevice) (zone : Nat) :
    List String → List ApiCall × List String
  | [] => ([], [])
  | m :: rest =>
      let brightness := if m = "OFF" then 0 else 100
      let t := proberTestLightMode dev zone m brightness
      let p := phase1Probe dev zone rest
      (t.1 ++ [.sleep LIGHT_TEST_DELAY_SECONDS] ++ p.1,
       (if t.2 then [m] else []) ++ p.2)

/-- Phase 2's level list: every brightness level except the 100 already proven
in phase 1. -/
def secondaryLevels : List Nat := BRIGHTNESS_LEVELS.filter (fun b => b ≠ 100)

/-- Ascending insertion without duplicates (sorted(set(...)) on the collected
levels, which the loop already produces in ascending order). -/
def insertAsc (a : Nat) : List Nat → List Nat
  | [] => [a]
  | b :: t =>
      if a < b then a :: b :: t
      else if a = b then b :: t
      else b :: insertAsc a t

/-- Python sorted(set(l)) for a list of levels. -/
def sortDedup (l : List Nat) : List Nat := l.foldr insertAsc []

/-- Phase 2 inner loop for one candidate mode: test each remaining level,
record the ones that verify; on the first successful WHITE test the RGB
channel sample is captured with one extra get_lights read. -/
def phase2Levels (dev : ProbeDevice) (zone : Nat) (mode : String) :
    List Nat → Bool → List ApiCall × List Nat
  | [], _ => ([], [])
  | b :: rest, rgbTaken =>
      let t := proberTestLightMode dev zone mode b
      let capture := t.2 && mode == "WHITE" && !rgbTaken
      let p := phase2Levels dev zone mode rest (rgbTaken || capture)
      (t.1 ++ (if capture then [.getLights] else [])
           ++ [.sleep LIGHT_TEST_DELAY_SECONDS] ++ p.1,
       (if t.2 then [b] else []) ++ p.2)

/-- Phase 2 for one candidate: OFF was already proven at 0% in phase 1 and is
recorded as supporting [0] with no further calls; any other candidate is
tested at the remaining levels, the canonical 100 is added to the recorded
support without re-testing, and the support set is sorted. -/
def phase2ForMode (dev : ProbeDevice) (zone : Nat) (mode : String) :
    List ApiCall × List Nat :=
  if mode = "OFF" then ([], [0])
  else
    let p := phase2Levels dev zone mode secondaryLevels false
    let support2 := if 100 ∈ p.2 then p.2 else p.2 ++ [100]
    (p.1, sortDedup support2)

/-- Phase 2 over all phase-1 candidates, accumulating supported_modes. -/
def phase2Probe (dev : ProbeDevice) (zone : Nat) :
    List String → List ApiCall × List (String × List Nat)
  | [] => ([], [])
  | m :: rest =>
      let q := phase2ForMode dev zone m
      let p := phase2Probe dev zone rest
      (q.1 ++ p.1, (m, q.2) :: p.2)

/-- _test_rgb_color_capability's reference colors: pure red, green, blue and
full white. -/
def RGB_TEST_COLORS : List (Nat × Nat × Nat) :=
  [(255, 0, 0), (0, 255, 0), (0, 0, 255), (255, 255, 255)]

/-- Phase 3: only when FULL_DYNAMIC_RGB is a supported mode, switch the zone
to it and apply each reference color with a settle wait and a read-back. -/
def phase3Probe (zone : Nat) (supportedNames : List String) : List ApiCall :=
  if "FULL_DYNAMIC_RGB" ∈ supportedNames then
    [.patchModeOnly zone "FULL_DYNAMIC_RGB", .sleep PATCH_SETTLE_SECONDS] ++
      RGB_TEST_COLORS.foldr
        (fun c acc =>
          [.patchColor zone c.1 c.2.1 c.2.2, .sleep PATCH_SETTLE_SECONDS, .getLights] ++ acc)
        []
  else []

/-- The trailing cleanup block of _test_all_light_modes ("Always turn lights
OFF after discovery test"): PATCH the zone to OFF at intensity 0; if that
call raises, attempt the light.set_mode(OFF, 0) fallback. -/
def cleanupTrace (dev : ProbeDevice) (zone : Nat) : List ApiCall :=
  if dev.offPatchFails then
    [.patchLight zone "OFF" 0, .setModeFallback zone "OFF" 0]
  else
    [.patchLight zone "OFF" 0, .sleep 3]

/-- The calls of _test_all_light_modes before the cleanup block: phase 1 over
ALL_LIGHT_MODES, phase 2 over the candidates, phase 3. -/
def preCleanupTrace (dev : ProbeDevice) (zone : Nat) : List ApiCall :=
  let p1 := phase1Probe dev zone ALL_LIGHT_MODES
  let p2 := phase2Probe dev zone p1.2
  p1.1 ++ p2.1 ++ phase3Probe zone (p2.2.map Prod.fst)

/-- The full call trace of a run of _test_all_light_modes that completes
normally: the phases followed by the cleanup block. -/
def testAllLightModesTrace (dev : ProbeDevice) (zone : Nat) : List ApiCall :=
  preCleanupTrace dev zone ++ cleanupTrace dev zone

/-- The call trace of a run aborted at its k-th suspension point (a
cancellation or any fatal error propagating out of the phase loops): every
operation is awaited, so the abort truncates the trace after k operations;
the cleanup block at the end of _test_all_light_modes is plain straight-line
code (no try/finally around the phases), so none of it runs. -/
def abortedTrace (dev : ProbeDevice) (zone : Nat) (k : Nat) : List ApiCall :=
  (preCleanupTrace dev zone).take k

/-- Device-API control calls (state-changing commands, as opposed to reads and
delays). -/
def isControlCall : ApiCall → Bool
  | .patchLight _ _ _ => true
  | .patchModeOnly _ _ => true
  | .patchColor _ _ _ _ => true
  | .setModeFallback _ _ _ => true
  | .getLights => false
  | .sleep _ => false

/-- A "turn off" command: mode OFF at intensity 0, over either control path. -/
def isOffCommand : ApiCall → Bool
  | .patchLight _ m i => m = "OFF" && i = 0
  | .setModeFallback _ m i => m = "OFF" && i = 0
  | _ => false

/-- The last device-API control call of a trace. -/
def lastControlCall (tr : List ApiCall) : Option ApiCall :=
  (tr.filter isControlCall).getLast?

/-! ## DiscoveryStateManager.get_state and object identity

discovery_state.py, get_state: the returned copy rebuilds the progress object
(DiscoveryProgress(**self._state.progress.to_dict()) allocates a fresh
object) but passes `results=self._state.results`, i.e. the same object
reference.  To reason about aliasing, the two mutable objects are given
explicit heap addresses; scalar fields (status, enums, timestamps, strings)
are immutable in Python and stay plain values. -/

/-- Heap of mutable manager objects: progress objects and results objects by
address; nextAddr is the next fresh address. -/
structure MgrHeap where
  progressAt : Nat → Option DiscoveryProgress
  resultsAt : Nat → Option DiscoveryResults
  nextAddr : Nat

/-- The manager's stored DiscoveryState with its mutable fields as
references into the heap. -/
structure StoredState where
  status : DiscoveryStatus := .idle
  mode : Option DiscoveryMode := none
  started_at : Option Nat := none
  completed_at : Option Nat := none
  progressRef : Nat
  resultsRef : Option Nat := none
  error : Option String := none

/-- get_state (under the lock): allocate a fresh progress object carrying the
same field values, and return a snapshot whose progress points at the fresh
object while results is the very same reference as the stored state's. -/
def get_state_heap (h : MgrHeap) (s : StoredState) : MgrHeap × StoredState :=
  ({ progressAt := fun a => if a = h.nextAddr then h.progressAt s.progressRef else h.progressAt a
     resultsAt := h.resultsAt
     nextAddr := h.nextAddr + 1 },
   { s with progressRef := h.nextAddr })

/-- Mutate the spas dict of the results object at an address (what a caller
does who writes through snapshot.results.spas). -/
def writeResultsSpas (h : MgrHeap) (a : Nat) (v : List (String × SpaResult)) : MgrHeap :=
  { h with resultsAt := fun x =>
      if x = a then (h.resultsAt a).map (fun o => { o with spas := v })
      else h.resultsAt x }

/-- Mutate a field of the progress object at an address (what a caller does
who writes through snapshot.progress). -/
def writeProgressObj (h : MgrHeap) (a : Nat) (p : DiscoveryProgress) : MgrHeap :=
  { h with progressAt := fun x => if x = a then some p else h.progressAt x }

/-- Dereference a state's results. -/
def readResults (h : MgrHeap) (s : StoredState) : Option DiscoveryResults :=
  s.resultsRef.bind h.resultsAt

/-- Dereference a state's progress. -/
def readProgress (h : MgrHeap) (s : StoredState) : Option DiscoveryProgress :=
  h.progressAt s.progressRef

/-- A stored state is well-formed in a heap when its references point below
the allocation frontier. -/
def StoredState.WFIn (s : StoredState) (h : MgrHeap) : Prop :=
  s.progressRef < h.nextAddr ∧ ∀ a, s.resultsRef = some a → a < h.nextAddr

/-! ## Small utilities and concrete fixtures used by the theorems -/

/-- Does the first char list start with the second? -/
def startsWithChars : List Char → List Char → Bool
  | _, [] => true
  | [], _ :: _ => false
  | a :: as, b :: bs => a = b && startsWithChars as bs

/-- Contiguous-sublist test on char lists. -/
def containsSubChars (needle : List Char) : List Char → Bool
  | [] => needle.isEmpty
  | c :: rest => startsWithChars (c :: rest) needle || containsSubChars needle rest

/-- Substring test (Python's `needle in haystack`). -/
def containsSubstr (hay needle : String) : Bool :=
  containsSubChars needle.toList hay.toList

/-- A fully permissive device: no PATCH is rejected, every read-back shows the
requested mode, and the cleanup PATCH succeeds. -/
def dvAll : ProbeDevice :=
  { rejects := fun _ _ => false, shows := fun _ _ => true }

/-- A device accepting only OFF and ON (every other PATCH is rejected). -/
def dvOffOn : ProbeDevice :=
  { rejects := fun m _ => !(m = "OFF" || m = "ON")
    shows := fun m _ => m = "OFF" || m = "ON" }

/-- Sample results payload for runner fixtures. -/
def sampleResults : DiscoveryResults :=
  { spas := [("spa1", { spa_id := "spa1"
                        lights := [{ id := "zone_1", zone := 1, detected_modes := ["OFF", "WHITE"] }] })]
    yaml_path := some "/config/discovered_items.yaml"
    total_lights := 1
    total_modes_detected := 2 }

/-- Runner configuration after start(quick); a run is active. -/
def runningAfterStart : RunnerState := applyStart initRunner .quick 0

/-- Runner configuration reached by start, task completion, then start again:
the second run is active while the first run's results are still stored. -/
def secondStartState : RunnerState :=
  applyStart (applyTaskEnd runningAfterStart (.completed sampleResults 1)) .quick 2

/-- A persisted document holding one spa with one light whose modes were
detected by an earlier run, an unrelated per-zone field ("raw") and an
unrelated per-device key ("pumps"). -/
def existingDoc : YamlDoc :=
  { discovered_items :=
      [("spa1",
        { lights := [{ id := "zone_1"
                       detected_modes := ["OFF", "WHITE"]
                       extra := [("raw", "zone-1-raw-blob")] }]
          extra := [("pumps", "pump-data")] })]
    extra := [] }

/-- The account fixture matching existingDoc: one spa with one light. -/
def oneSpaOneLight : List SpaDev := [{ id := "spa1", lights := [{ zone := 1 }] }]

/-- Heap fixture for the aliasing claims: one progress object at address 0 and
one results object at address 1. -/
def heapFixture : MgrHeap :=
  { progressAt := fun a => if a = 0 then some {} else none
    resultsAt := fun a => if a = 1 then some sampleResults else none
    nextAddr := 2 }

/-- Stored-state fixture pointing at the two objects of heapFixture. -/
def storedFixture : StoredState :=
  { status := .completed, progressRef := 0, resultsRef := some 1 }

/-- update_state's results branch allocates a fresh DiscoveryResults object
and rebinds the stored reference to it; the previously referenced object is
not mutated. -/
def update_results_heap (h : MgrHeap) (s : StoredState) (r : DiscoveryResults) :
    MgrHeap × StoredState :=
  ({ progressAt := h.progressAt
     resultsAt := fun a => if a = h.nextAddr then some r else h.resultsAt a
     nextAddr := h.nextAddr + 1 },
   { s with resultsRef := some h.nextAddr })

/-- Is this call the PATCH of the given mode on the given zone? -/
def isPatchFor (zone : Nat) (m : String) : ApiCall → Bool
  | .patchLight z mm _ => z == zone && mm == m
  | _ => false

/-- The intensity carried by a patchLight call (0 otherwise). -/
def patchIntensity : ApiCall → Nat
  | .patchLight _ _ i => i
  | _ => 0

/-- The progress object produced by a sequence of update_progress calls,
starting from the initial progress. -/
def progressAfter (us : List ProgressUpdates) : DiscoveryProgress :=
  us.foldl applyProgressUpdates {}

/-- The state produced by a sequence of update_state calls, starting from the
initial idle state. -/
def stateAfterUpdates (us : List StateUpdates) : DiscoveryState :=
  us.foldl applyStateUpdates {}

/-- The runner's per-spa totals update (1 light, a 2-mode plan): it resets
lights_tested and modes_tested to 0 when the loop moves to a new spa. -/
def spaTotalsUpdate : ProgressUpdates :=
  { lights_total := some 1, modes_total := some 2
    lights_tested := some 0, modes_tested := some 0 }

/-- The runner's per-mode progress bump: modes_tested := previous + 1. -/
def modesTestedUpdate (k : Nat) : ProgressUpdates := { modes_tested := some k }

/-! # Theorems -/

/-- C1: a PersistedOnly (yaml_only) run over the account of existingDoc
overwrites the previously detected mode list of zone_1 with the empty list
(while the unrelated "raw" and "pumps" fields survive): the written document
is not byte-identical in its detected-mode lists, so the claim fails on the
code at this input. -/
theorem c1_yaml_only_wipes_detected_modes :
    saveResultsMerge existingDoc (spaLoopResults .yaml_only (fun _ _ => false) oneSpaOneLight)
      = { discovered_items :=
            [("spa1",
              { lights := [{ id := "zone_1"
                             detected_modes := []
                             extra := [("raw", "zone-1-raw-blob")] }]
                extra := [("pumps", "pump-data")] })]
          extra := [] }
    ∧ (existingDoc.discovered_items.map
        (fun kv => kv.2.lights.map LightEntry.detected_modes)) = [[["OFF", "WHITE"]]] := by
  constructor
  · rfl
  · rfl

/-- C2 counterexample: probing completed, but the document write fails; the
run ends with status Failed (not Completed) and no results are stored, so a
persistence write failure does cause the run to end Failed, contradicting the
claim at this concrete input. -/
theorem c2_write_failure_fails_run :
    (runFinish runningAfterStart.state sampleResults 3 (some "disk full")).status
        = DiscoveryStatus.failed
    ∧ (runFinish runningAfterStart.state sampleResults 3 (some "disk full")).results = none
    ∧ (runFinish runningAfterStart.state sampleResults 3 (some "disk full")).error
        = some "disk full" := by
  exact ⟨rfl, rfl, rfl⟩

/-- C2 amended: a persistence READ failure is non-fatal (a missing or
malformed document is replaced by the fresh empty document and the run still
completes), but a document WRITE failure propagates out of
_save_results_to_yaml: the run ends with status Failed, the error is the
write failure's message, and the results field keeps its previous value
(the run's in-memory results are not stored). -/
theorem c2_amended_persistence_error_semantics (st : DiscoveryState)
    (r : DiscoveryResults) (t : Nat) (e : String) (d : YamlDoc) :
    loadExistingData none = ({} : YamlDoc)
    ∧ loadExistingData (some none) = ({} : YamlDoc)
    ∧ loadExistingData (some (some d)) = d
    ∧ (runFinish st r t none).status = DiscoveryStatus.completed
    ∧ (runFinish st r t none).results = some r
    ∧ (runFinish st r t (some e)).status = DiscoveryStatus.failed
    ∧ (runFinish st r t (some e)).error = some e
    ∧ (runFinish st r t (some e)).results = st.results := by
  exact ⟨rfl, rfl, rfl, rfl, rfl, rfl, rfl, rfl⟩

/-- C3: the cleanup block of _test_all_light_modes is not protected by a
try/finally, so a run aborted mid-zone (cancellation or a fatal error
propagating out of the phase loops) never issues the final off command: at
the concrete abort point below the last control call issued for the zone is
the phase-1 PATCH of PURPLE at 100%, not an off command — while a normally
completing run does end with the off command. -/
theorem c3_aborted_run_skips_off_cleanup :
    lastControlCall (abortedTrace dvAll 1 5) = some (ApiCall.patchLight 1 "PURPLE" 100)
    ∧ isOffCommand (ApiCall.patchLight 1 "PURPLE" 100) = false
    ∧ lastControlCall (testAllLightModesTrace dvAll 1) = some (ApiCall.patchLight 1 "OFF" 0)
    ∧ isOffCommand (ApiCall.patchLight 1 "OFF" 0) = true := by
  refine ⟨?_, rfl, ?_, rfl⟩
  · rfl
  · rfl

/-- Helper: the configuration after start(quick) is reachable. -/
theorem reachable_runningAfterStart : ReachableRunner runningAfterStart :=
  ReachableRunner.step ReachableRunner.init (RunnerStep.start initRunner .quick 0 rfl)

/-- Helper: in every reachable configuration the task flag and the RUNNING
status coincide (the sequential model of the lock-protected transitions). -/
theorem reachable_task_iff_running (s : RunnerState) (h : ReachableRunner s) :
    s.task = true ↔ s.state.status = DiscoveryStatus.running := by
  induction h with
  | init => simp [initRunner]
  | step _ hs ih =>
      cases hs with
      | start m t h0 =>
          simp [applyStart, applyStateUpdates, startUpdates]
      | taskCompleted r t h0 =>
          simp [applyTaskEnd, applyStateUpdates]
      | taskFailed e t h0 =>
          simp [applyTaskEnd, applyStateUpdates]
      | stop ending h0 =>
          have h1 : (_ : RunnerState).task = true := h0
          simp only [runner_stop, is_running, h1, if_true]
          cases ending <;> simp [applyTaskEnd, applyStateUpdates]
      | reset h0 =>
          have h1 : (_ : RunnerState).task = false := h0
          simp [DiscoveryState.resetState, h1]

/-- Helper: reachable invariant that a Completed status always carries
results (the Completed update is the only writer of the status and always
sets results). -/
theorem reachable_completed_has_results (s : RunnerState) (h : ReachableRunner s) :
    s.state.status = DiscoveryStatus.completed → s.state.results.isSome = true := by
  induction h with
  | init => intro hc; simp [initRunner] at hc
  | step _ hs ih =>
      cases hs with
      | start m t h0 =>
          intro hc
          simp [applyStart, applyStateUpdates, startUpdates] at hc
      | taskCompleted r t h0 =>
          intro _
          simp [applyTaskEnd, applyStateUpdates]
      | taskFailed e t h0 =>
          intro hc
          simp [applyTaskEnd, applyStateUpdates] at hc
      | stop ending h0 =>
          intro hc
          have h1 : (_ : RunnerState).task = true := h0
          simp only [runner_stop, is_running, h1, if_true] at hc
          cases ending <;> simp [applyTaskEnd, applyStateUpdates] at hc
      | reset h0 =>
          intro hc
          simp [DiscoveryState.resetState] at hc

/-- C4 counterexample: after start, task completion and a second start, the
configuration is reachable, its status is Running, and the first run's
results are still set — so results is non-None while status is not
Completed, refuting the claimed invariant. -/
theorem c4_running_state_keeps_stale_results :
    ReachableRunner secondStartState
    ∧ secondStartState.state.status = DiscoveryStatus.running
    ∧ secondStartState.state.results = some sampleResults := by
  refine ⟨?_, rfl, rfl⟩
  exact ReachableRunner.step
    (ReachableRunner.step reachable_runningAfterStart
      (RunnerStep.taskCompleted runningAfterStart sampleResults 1 rfl))
    (RunnerStep.start _ .quick 2 rfl)

/-- C4 amended: in every reachable configuration, status Completed implies
results is set; but start and stop leave the results field untouched (only
reset clears it), so results from a prior completed run may remain set while
the status is Running or Idle. -/
theorem c4_amended_results_only_written_on_completion (s : RunnerState)
    (h : ReachableRunner s) :
    (s.state.status = DiscoveryStatus.completed → s.state.results.isSome = true)
    ∧ (∀ (m : DiscoveryMode) (t : Nat), (applyStart s m t).state.results = s.state.results)
    ∧ (is_running s = true →
        ((runner_stop s .stopReturn).2).state.results = s.state.results
        ∧ ((runner_stop s .stopReturn).2).state.status = DiscoveryStatus.idle) := by
  refine ⟨reachable_completed_has_results s h, ?_, ?_⟩
  · intro m t
    rfl
  · intro hrun
    have hrun' : s.task = true := hrun
    simp [runner_stop, is_running, hrun', applyTaskEnd, applyStateUpdates]

/-- C4 amended, witness at the concrete reachable second-start configuration. -/
theorem c4_amended_results_only_written_on_completion_witness :
    (secondStartState.state.status = DiscoveryStatus.completed →
      secondStartState.state.results.isSome = true)
    ∧ (∀ (m : DiscoveryMode) (t : Nat),
        (applyStart secondStartState m t).state.results = secondStartState.state.results)
    ∧ (is_running secondStartState = true →
        ((runner_stop secondStartState .stopReturn).2).state.results
            = secondStartState.state.results
        ∧ ((runner_stop secondStartState .stopReturn).2).state.status
            = DiscoveryStatus.idle) :=
  c4_amended_results_only_written_on_completion secondStartState
    (ReachableRunner.step
      (ReachableRunner.step reachable_runningAfterStart
        (RunnerStep.taskCompleted runningAfterStart sampleResults 1 rfl))
      (RunnerStep.start _ .quick 2 rfl))

/-- C9 counterexample: while a run is active, start("bogus") returns a
structured failure whose error is the "Invalid mode" rejection — it does not
contain "already running" — so not every start call made while running gets
the "already running" error (the name validation fires first). -/
theorem c9_invalid_name_while_running :
    is_running runningAfterStart = true
    ∧ (coordinator_start runningAfterStart "bogus" 1).1.success = false
    ∧ (coordinator_start runningAfterStart "bogus" 1).1.error
        = some "Invalid mode: bogus. Use 'full', 'quick', or 'yaml_only'"
    ∧ containsSubstr "Invalid mode: bogus. Use 'full', 'quick', or 'yaml_only'"
        "already running" = false
    ∧ (coordinator_start runningAfterStart "bogus" 1).2 = runningAfterStart := by
  refine ⟨rfl, rfl, rfl, ?_, rfl⟩
  decide

/-- C9 amended: while a run is active every start call fails and changes
nothing (no second task is spawned); a call with a VALID plan name gets the
error "Discovery already running" (which contains "already running"), while
an invalid name gets the "Invalid mode" rejection instead; and start can
succeed only when no run is active, hence (in reachable configurations)
never while the status is Running. -/
theorem c9_amended_start_rejection (s : RunnerState) (name : String) (t : Nat)
    (h : ReachableRunner s) :
    (is_running s = true →
        (coordinator_start s name t).1.success = false
        ∧ (coordinator_start s name t).2 = s
        ∧ ((parseDiscoveryMode name).isSome = true →
            (coordinator_start s name t).1.error = some "Discovery already running"))
    ∧ ((coordinator_start s name t).1.success = true →
        is_running s = false ∧ s.state.status ≠ DiscoveryStatus.running) := by
  have hiff := reachable_task_iff_running s h
  constructor
  · intro hrun
    have hrun' : s.task = true := hrun
    unfold coordinator_start
    cases hm : parseDiscoveryMode name with
    | none => exact ⟨rfl, rfl, by simp⟩
    | some m => simp [is_running, hrun']
  · intro hok
    unfold coordinator_start at hok
    cases hm : parseDiscoveryMode name with
    | none => rw [hm] at hok; simp at hok
    | some m =>
        rw [hm] at hok
        cases hb : s.task with
        | true => simp [is_running, hb] at hok
        | false =>
            refine ⟨hb, ?_⟩
            intro hst
            have := hiff.mpr hst
            rw [hb] at this
            cases this

/-- C9 amended, witness: a running configuration rejects start("quick") with
the "already running" error and leaves the configuration unchanged. -/
theorem c9_amended_start_rejection_witness :
    (is_running runningAfterStart = true →
        (coordinator_start runningAfterStart "quick" 7).1.success = false
        ∧ (coordinator_start runningAfterStart "quick" 7).2 = runningAfterStart
        ∧ ((parseDiscoveryMode "quick").isSome = true →
            (coordinator_start runningAfterStart "quick" 7).1.error
              = some "Discovery already running"))
    ∧ ((coordinator_start runningAfterStart "quick" 7).1.success = true →
        is_running runningAfterStart = false
        ∧ runningAfterStart.state.status ≠ DiscoveryStatus.running) :=
  c9_amended_start_rejection runningAfterStart "quick" 7 reachable_runningAfterStart

/-- C10: stop() with no active run returns the structured "No discovery
running" failure and changes nothing; stop() with an active run raises the
stop signal and — whether the task ends by the stop-checkpoint return, by
completing, by failing, or by the hard cancel after the wait timeout —
returns success and always finishes by writing status Idle with the
explanatory "Stopped by user" note. -/
theorem c10_stop_contract (s : RunnerState) (ending : TaskEnd) :
    (is_running s = false →
        coordinator_stop s ending
          = ({ success := false, error := some "No discovery running" }, s))
    ∧ (is_running s = true →
        (coordinator_stop s ending).1.success = true
        ∧ ((coordinator_stop s ending).2).state.status = DiscoveryStatus.idle
        ∧ ((coordinator_stop s ending).2).state.error = some "Stopped by user"
        ∧ ((coordinator_stop s ending).2).stop_event = true
        ∧ ((coordinator_stop s ending).2).task = false) := by
  constructor
  · intro hidle
    simp [coordinator_stop, hidle]
  · intro hrun
    simp only [coordinator_stop, runner_stop, hrun, if_true]
    cases ending <;> simp [applyTaskEnd, applyStateUpdates]

/-- C10 witness: the running fixture stopped through the hard-cancel path
still converges to Idle with the note, and the idle fixture is rejected. -/
theorem c10_stop_contract_witness :
    (is_running runningAfterStart = true
      ∧ (coordinator_stop runningAfterStart .cancelledByTimeout).1.success = true
      ∧ ((coordinator_stop runningAfterStart .cancelledByTimeout).2).state.status
          = DiscoveryStatus.idle
      ∧ ((coordinator_stop runningAfterStart .cancelledByTimeout).2).state.error
          = some "Stopped by user"
      ∧ ((coordinator_stop runningAfterStart .cancelledByTimeout).2).stop_event = true
      ∧ ((coordinator_stop runningAfterStart .cancelledByTimeout).2).task = false)
    ∧ (is_running initRunner = false
      ∧ coordinator_stop initRunner .stopReturn
          = ({ success := false, error := some "No discovery running" }, initRunner)) :=
  ⟨⟨rfl, (c10_stop_contract runningAfterStart .cancelledByTimeout).2 rfl⟩,
   ⟨rfl, (c10_stop_contract initRunner .stopReturn).1 rfl⟩⟩

/-- Helper: the verification verdict of one mode/brightness test. -/
theorem proberTestLightMode_snd (dev : ProbeDevice) (zone : Nat) (m : String) (b : Nat) :
    (proberTestLightMode dev zone m b).2 = (!dev.rejects m b && dev.shows m b) := by
  cases h : dev.rejects m b <;> simp [proberTestLightMode, h]

/-- Helper: one test's calls contain exactly the one PATCH of its own mode. -/
theorem proberTest_filter_self (dev : ProbeDevice) (zone : Nat) (m : String) (b : Nat) :
    (proberTestLightMode dev zone m b).1.filter (isPatchFor zone m)
      = [ApiCall.patchLight zone m b] := by
  cases h : dev.rejects m b <;> simp [proberTestLightMode, h, isPatchFor]

/-- Helper: one test's calls contain no PATCH of a different mode. -/
theorem proberTest_filter_ne (dev : ProbeDevice) (zone : Nat) (m : String) (b : Nat)
    (mq : String) (h : ¬ (m = mq)) :
    (proberTestLightMode dev zone m b).1.filter (isPatchFor zone mq) = [] := by
  cases hr : dev.rejects m b <;> simp [proberTestLightMode, hr, isPatchFor, h]

/-- Helper: unfolding of phase 1 on a cons cell. -/
theorem phase1Probe_cons (dev : ProbeDevice) (zone : Nat) (a : String) (rest : List String) :
    phase1Probe dev zone (a :: rest) =
      ((proberTestLightMode dev zone a (if a = "OFF" then 0 else 100)).1
          ++ [ApiCall.sleep LIGHT_TEST_DELAY_SECONDS] ++ (phase1Probe dev zone rest).1,
       (if (proberTestLightMode dev zone a (if a = "OFF" then 0 else 100)).2 then [a] else [])
          ++ (phase1Probe dev zone rest).2) := rfl

/-- Helper: a mode outside the list is never patched in phase 1. -/
theorem phase1_filter_not_mem (dev : ProbeDevice) (zone : Nat) (mq : String) :
    ∀ l : List String, mq ∉ l →
      (phase1Probe dev zone l).1.filter (isPatchFor zone mq) = [] := by
  intro l
  induction l with
  | nil => intro _; rfl
  | cons a rest ih =>
      intro hmem
      rw [List.mem_cons] at hmem
      push_neg at hmem
      rw [phase1Probe_cons]
      simp only [List.filter_append]
      rw [proberTest_filter_ne dev zone a _ mq (fun h => hmem.1 h.symm), ih hmem.2]
      simp [isPatchFor]

/-- Helper: a mode of the list is patched exactly once in phase 1, at its
canonical brightness. -/
theorem phase1_filter_of_mem (dev : ProbeDevice) (zone : Nat) (m : String) :
    ∀ l : List String, l.Nodup → m ∈ l →
      (phase1Probe dev zone l).1.filter (isPatchFor zone m)
        = [ApiCall.patchLight zone m (if m = "OFF" then 0 else 100)] := by
  intro l
  induction l with
  | nil => intro _ hm; cases hm
  | cons a rest ih =>
      intro hnd hm
      obtain ⟨hna, hndr⟩ := List.nodup_cons.mp hnd
      rw [phase1Probe_cons]
      simp only [List.filter_append]
      rcases List.mem_cons.mp hm with he | hr
      · subst he
        rw [proberTest_filter_self, phase1_filter_not_mem dev zone m rest hna]
        simp [isPatchFor]
      · have hne : ¬ (a = m) := fun h => hna (h ▸ hr)
        rw [proberTest_filter_ne dev zone a _ m hne, ih hndr hr]
        simp [isPatchFor]

/-- Helper: phase-1 candidates come from the tested mode list. -/
theorem phase1_cands_subset (dev : ProbeDevice) (zone : Nat) :
    ∀ l : List String, ∀ x, x ∈ (phase1Probe dev zone l).2 → x ∈ l := by
  intro l
  induction l with
  | nil => intro x hx; cases hx
  | cons a rest ih =>
      intro x hx
      rw [phase1Probe_cons] at hx
      rcases List.mem_append.mp hx with h1 | h2
      · cases hok : (proberTestLightMode dev zone a (if a = "OFF" then 0 else 100)).2 with
        | false => rw [hok] at h1; cases h1
        | true =>
            rw [hok] at h1
            simp at h1
            exact List.mem_cons.mpr (Or.inl h1)
      · exact List.mem_cons_of_mem a (ih x h2)

/-- Helper: a listed mode is a phase-1 candidate iff its canonical test
verified. -/
theorem phase1_mem_cands (dev : ProbeDevice) (zone : Nat) (m : String) :
    ∀ l : List String, l.Nodup → m ∈ l →
      (m ∈ (phase1Probe dev zone l).2
        ↔ (proberTestLightMode dev zone m (if m = "OFF" then 0 else 100)).2 = true) := by
  intro l
  induction l with
  | nil => intro _ hm; cases hm
  | cons a rest ih =>
      intro hnd hm
      obtain ⟨hna, hndr⟩ := List.nodup_cons.mp hnd
      rw [phase1Probe_cons]
      rcases List.mem_cons.mp hm with he | hr
      · subst he
        constructor
        · intro hmm
          rcases List.mem_append.mp hmm with h1 | h2
          · cases hok : (proberTestLightMode dev zone m (if m = "OFF" then 0 else 100)).2 with
            | false => rw [hok] at h1; cases h1
            | true => rfl
          · exact absurd (phase1_cands_subset dev zone rest m h2) hna
        · intro hok
          rw [hok]
          simp
      · have hne : ¬ (m = a) := fun h => hna (h ▸ hr)
        constructor
        · intro hmm
          rcases List.mem_append.mp hmm with h1 | h2
          · cases hok : (proberTestLightMode dev zone a (if a = "OFF" then 0 else 100)).2 with
            | false => rw [hok] at h1; cases h1
            | true =>
                rw [hok] at h1
                simp at h1
                exact absurd h1 hne
          · exact (ih hndr hr).mp h2
        · intro hok
          exact List.mem_append.mpr (Or.inr ((ih hndr hr).mpr hok))

/-- Helper: when the canonical PATCH of a listed mode is not rejected, the
phase-1 trace contains the PATCH, settle delay, read-back as a contiguous
block. -/
theorem phase1_infix_of_mem (dev : ProbeDevice) (zone : Nat) (m : String) :
    ∀ l : List String, m ∈ l →
      dev.rejects m (if m = "OFF" then 0 else 100) = false →
      List.IsInfix
        [ApiCall.patchLight zone m (if m = "OFF" then 0 else 100),
         ApiCall.sleep PATCH_SETTLE_SECONDS, ApiCall.getLights]
        (phase1Probe dev zone l).1 := by
  intro l
  induction l with
  | nil => intro hm; cases hm
  | cons a rest ih =>
      intro hm hrej
      rw [phase1Probe_cons]
      rcases List.mem_cons.mp hm with he | hr
      · subst he
        refine ⟨[], [ApiCall.sleep LIGHT_TEST_DELAY_SECONDS] ++ (phase1Probe dev zone rest).1, ?_⟩
        simp [proberTestLightMode, hrej]
      · obtain ⟨pre, post, hsplit⟩ := ih hr hrej
        refine ⟨(proberTestLightMode dev zone a (if a = "OFF" then 0 else 100)).1
            ++ [ApiCall.sleep LIGHT_TEST_DELAY_SECONDS] ++ pre, post, ?_⟩
        simp only [List.append_assoc] at hsplit ⊢
        rw [hsplit]

/-- C5: in phase 1 every mode of the tested set is applied exactly once, at
the canonical intensity (0 for OFF, 100 for every other mode); when the PATCH
is not rejected it is followed by the settle delay and the read-back; and the
mode becomes a candidate exactly when that verification succeeds. -/
theorem c5_phase1_canonical_sieve (dev : ProbeDevice) (zone : Nat) (m : String)
    (h : m ∈ ALL_LIGHT_MODES) :
    (phase1Probe dev zone ALL_LIGHT_MODES).1.filter (isPatchFor zone m)
        = [ApiCall.patchLight zone m (if m = "OFF" then 0 else 100)]
    ∧ (dev.rejects m (if m = "OFF" then 0 else 100) = false →
        List.IsInfix
          [ApiCall.patchLight zone m (if m = "OFF" then 0 else 100),
           ApiCall.sleep PATCH_SETTLE_SECONDS, ApiCall.getLights]
          (phase1Probe dev zone ALL_LIGHT_MODES).1)
    ∧ (m ∈ (phase1Probe dev zone ALL_LIGHT_MODES).2
        ↔ (!dev.rejects m (if m = "OFF" then 0 else 100)
            && dev.shows m (if m = "OFF" then 0 else 100)) = true) := by
  have hnd : ALL_LIGHT_MODES.Nodup := by decide
  refine ⟨phase1_filter_of_mem dev zone m ALL_LIGHT_MODES hnd h,
          fun hrej => phase1_infix_of_mem dev zone m ALL_LIGHT_MODES h hrej, ?_⟩
  rw [phase1_mem_cands dev zone m ALL_LIGHT_MODES hnd h, proberTestLightMode_snd]

/-- C5 witness at the permissive device, zone 1, mode OFF. -/
theorem c5_phase1_canonical_sieve_witness :
    ("OFF" ∈ ALL_LIGHT_MODES)
    ∧ ((phase1Probe dvAll 1 ALL_LIGHT_MODES).1.filter (isPatchFor 1 "OFF")
          = [ApiCall.patchLight 1 "OFF" (if "OFF" = "OFF" then 0 else 100)]
      ∧ (dvAll.rejects "OFF" (if "OFF" = "OFF" then 0 else 100) = false →
          List.IsInfix
            [ApiCall.patchLight 1 "OFF" (if "OFF" = "OFF" then 0 else 100),
             ApiCall.sleep PATCH_SETTLE_SECONDS, ApiCall.getLights]
            (phase1Probe dvAll 1 ALL_LIGHT_MODES).1)
      ∧ ("OFF" ∈ (phase1Probe dvAll 1 ALL_LIGHT_MODES).2
          ↔ (!dvAll.rejects "OFF" (if "OFF" = "OFF" then 0 else 100)
              && dvAll.shows "OFF" (if "OFF" = "OFF" then 0 else 100)) = true)) :=
  ⟨by decide, c5_phase1_canonical_sieve dvAll 1 "OFF" (by decide)⟩

/-- Helper: unfolding of the phase-2 level loop on a cons cell. -/
theorem phase2Levels_cons (dev : ProbeDevice) (zone : Nat) (m : String) (b : Nat)
    (rest : List Nat) (rgbT : Bool) :
    phase2Levels dev zone m (b :: rest) rgbT =
      ((proberTestLightMode dev zone m b).1
          ++ (if ((proberTestLightMode dev zone m b).2 && m == "WHITE" && !rgbT)
              then [ApiCall.getLights] else [])
          ++ [ApiCall.sleep LIGHT_TEST_DELAY_SECONDS]
          ++ (phase2Levels dev zone m rest
              (rgbT || ((proberTestLightMode dev zone m b).2 && m == "WHITE" && !rgbT))).1,
       (if (proberTestLightMode dev zone m b).2 then [b] else [])
          ++ (phase2Levels dev zone m rest
              (rgbT || ((proberTestLightMode dev zone m b).2 && m == "WHITE" && !rgbT))).2) := rfl

/-- Helper: the levels recorded by the phase-2 loop are exactly the levels
whose test verified (independently of the RGB-capture flag). -/
theorem phase2Levels_snd (dev : ProbeDevice) (zone : Nat) (m : String) :
    ∀ (ls : List Nat) (rgbT : Bool),
      (phase2Levels dev zone m ls rgbT).2
        = ls.filter (fun b => (proberTestLightMode dev zone m b).2) := by
  intro ls
  induction ls with
  | nil => intro rgbT; rfl
  | cons b rest ih =>
      intro rgbT
      rw [phase2Levels_cons]
      cases hok : (proberTestLightMode dev zone m b).2 <;>
        simp [List.filter_cons, hok, ih]

/-- Helper: the PATCH calls the phase-2 loop issues for its mode are exactly
one per level of the level list, in order. -/
theorem phase2Levels_patches (dev : ProbeDevice) (zone : Nat) (m : String) :
    ∀ (ls : List Nat) (rgbT : Bool),
      (((phase2Levels dev zone m ls rgbT).1.filter (isPatchFor zone m)).map patchIntensity)
        = ls := by
  intro ls
  induction ls with
  | nil => intro rgbT; rfl
  | cons b rest ih =>
      intro rgbT
      rw [phase2Levels_cons]
      simp only [List.filter_append, List.map_append]
      rw [proberTest_filter_self]
      cases hcap : ((proberTestLightMode dev zone m b).2 && m == "WHITE" && !rgbT) <;>
        simp [isPatchFor, patchIntensity, ih, hcap]

/-- Helper: membership in an ascending no-duplicate insertion. -/
theorem mem_insertAsc (x a : Nat) :
    ∀ l : List Nat, x ∈ insertAsc a l ↔ x = a ∨ x ∈ l := by
  intro l
  induction l with
  | nil => simp [insertAsc]
  | cons b t ih =>
      simp only [insertAsc]
      by_cases h1 : a < b
      · simp [h1, List.mem_cons]
      · by_cases h2 : a = b
        · subst h2
          simp only [h1, if_false, if_pos rfl]
          simp [List.mem_cons]
        · simp only [h1, h2, if_false]
          rw [List.mem_cons, ih, List.mem_cons]
          tauto

/-- Helper: sortDedup preserves membership. -/
theorem mem_sortDedup (x : Nat) : ∀ l : List Nat, x ∈ sortDedup l ↔ x ∈ l := by
  intro l
  induction l with
  | nil => simp [sortDedup]
  | cons a t ih =>
      show x ∈ insertAsc a (sortDedup t) ↔ _
      rw [mem_insertAsc, ih, List.mem_cons]

/-- C6 counterexample: with a fully permissive device, the phase-2 levels
tested for the candidate mode ON are 0, 25, 50 and 75 — level 0 (the level
already proven for the off-mode) is re-tested — not the claimed 25/50/75. -/
theorem c6_phase2_retests_level_zero :
    secondaryLevels = [0, 25, 50, 75]
    ∧ ((phase2ForMode dvAll 1 "ON").1.filter (isPatchFor 1 "ON")).map patchIntensity
        = [0, 25, 50, 75]
    ∧ (phase2ForMode dvAll 1 "ON").2 = [0, 25, 50, 75, 100]
    ∧ ¬ (([0, 25, 50, 75] : List Nat) = [25, 50, 75]) :=
  ⟨rfl, rfl, rfl, by decide⟩

/-- C6 amended: for every candidate mode other than OFF, phase 2 tests
exactly the levels of BRIGHTNESS_LEVELS except 100 (that is 0/25/50/75 — the
off-mode's proven level 0 is re-tested, not excluded), never re-tests 100,
and records the verified levels together with the canonical 100. -/
theorem c6_amended_phase2_levels (dev : ProbeDevice) (zone : Nat) (m : String)
    (h : ¬ (m = "OFF")) :
    ((phase2ForMode dev zone m).1.filter (isPatchFor zone m)).map patchIntensity
        = secondaryLevels
    ∧ secondaryLevels = BRIGHTNESS_LEVELS.filter (fun b => b ≠ 100)
    ∧ (100 : Nat) ∉
        ((phase2ForMode dev zone m).1.filter (isPatchFor zone m)).map patchIntensity
    ∧ 100 ∈ (phase2ForMode dev zone m).2
    ∧ (phase2ForMode dev zone m).2
        = sortDedup
            ((secondaryLevels.filter (fun b => (proberTestLightMode dev zone m b).2))
              ++ [100]) := by
  have hsupp : (phase2Levels dev zone m secondaryLevels false).2
      = secondaryLevels.filter (fun b => (proberTestLightMode dev zone m b).2) :=
    phase2Levels_snd dev zone m secondaryLevels false
  have h100 : (100 : Nat) ∉ (phase2Levels dev zone m secondaryLevels false).2 := by
    rw [hsupp]
    intro hmem
    have := (List.mem_filter.mp hmem).1
    simp [secondaryLevels, BRIGHTNESS_LEVELS] at this
  have hunfold : phase2ForMode dev zone m
      = ((phase2Levels dev zone m secondaryLevels false).1,
         sortDedup ((phase2Levels dev zone m secondaryLevels false).2 ++ [100])) := by
    simp only [phase2ForMode, h, if_false]
    rw [if_neg h100]
  refine ⟨?_, by decide, ?_, ?_, ?_⟩
  · rw [hunfold]
    exact phase2Levels_patches dev zone m secondaryLevels false
  · rw [hunfold]
    rw [phase2Levels_patches dev zone m secondaryLevels false]
    decide
  · rw [hunfold]
    rw [mem_sortDedup]
    simp
  · rw [hunfold, hsupp]

/-- C6 amended, witness at the permissive device, zone 1, mode ON. -/
theorem c6_amended_phase2_levels_witness :
    (¬ ("ON" = "OFF"))
    ∧ (((phase2ForMode dvAll 1 "ON").1.filter (isPatchFor 1 "ON")).map patchIntensity
          = secondaryLevels
      ∧ secondaryLevels = BRIGHTNESS_LEVELS.filter (fun b => b ≠ 100)
      ∧ (100 : Nat) ∉
          ((phase2ForMode dvAll 1 "ON").1.filter (isPatchFor 1 "ON")).map patchIntensity
      ∧ 100 ∈ (phase2ForMode dvAll 1 "ON").2
      ∧ (phase2ForMode dvAll 1 "ON").2
          = sortDedup
              ((secondaryLevels.filter (fun b => (proberTestLightMode dvAll 1 "ON" b).2))
                ++ [100])) :=
  ⟨by decide, c6_amended_phase2_levels dvAll 1 "ON" (by decide)⟩

/-- Helper: the rounded value stays within half a unit of its argument. -/
theorem halfEvenInt_dist (y : ℚ) : |((halfEvenInt y : ℤ) : ℚ) - y| ≤ 1/2 := by
  have h0 : ((⌊y⌋ : ℤ) : ℚ) ≤ y := Int.floor_le y
  have h1 : y < (⌊y⌋ : ℤ) + 1 := Int.lt_floor_add_one y
  have hEq : halfEvenInt y =
      (if y - ((⌊y⌋ : ℤ) : ℚ) < 1/2 then ⌊y⌋
       else if 1/2 < y - ((⌊y⌋ : ℤ) : ℚ) then ⌊y⌋ + 1
       else if ⌊y⌋ % 2 = 0 then ⌊y⌋ else ⌊y⌋ + 1) := rfl
  rw [hEq]
  split_ifs with hlt hgt hev
  · rw [abs_le]
    constructor <;> linarith
  · rw [abs_le]
    refine ⟨?_, ?_⟩ <;> push_cast <;> linarith
  · rw [abs_le]
    have heq : y - ((⌊y⌋ : ℤ) : ℚ) = 1/2 := le_antisymm (not_lt.mp hgt) (not_lt.mp hlt)
    constructor <;> linarith
  · rw [abs_le]
    have heq : y - ((⌊y⌋ : ℤ) : ℚ) = 1/2 := le_antisymm (not_lt.mp hgt) (not_lt.mp hlt)
    refine ⟨?_, ?_⟩ <;> push_cast <;> linarith

/-- Helper: round half to even is monotone. -/
theorem halfEvenInt_mono {x y : ℚ} (h : x ≤ y) : halfEvenInt x ≤ halfEvenInt y := by
  by_contra hcon
  push_neg at hcon
  have hx := abs_le.mp (halfEvenInt_dist x)
  have hy := abs_le.mp (halfEvenInt_dist y)
  have hz : ((halfEvenInt y : ℤ) : ℚ) + 1 ≤ ((halfEvenInt x : ℤ) : ℚ) := by
    exact_mod_cast Int.add_one_le_iff.mpr hcon
  have hyx : y ≤ x := by linarith [hx.2, hy.1]
  have hxy : x = y := le_antisymm h hyx
  rw [hxy] at hcon
  exact lt_irrefl _ hcon

/-- Helper: pyRound1 is monotone. -/
theorem pyRound1_mono {x y : ℚ} (h : x ≤ y) : pyRound1 x ≤ pyRound1 y := by
  unfold pyRound1
  have hm := halfEvenInt_mono (mul_le_mul_of_nonneg_right h (by norm_num : (0:ℚ) ≤ 10))
  have hc : ((halfEvenInt (x*10) : ℤ) : ℚ) ≤ ((halfEvenInt (y*10) : ℤ) : ℚ) := by
    exact_mod_cast hm
  exact (div_le_div_iff_of_pos_right (by norm_num : (0:ℚ) < 10)).mpr hc

/-- Helper: with modes_total unchanged and modes_tested not decreased, the
percentage formula does not decrease. -/
theorem calcPercentage_mono (p q : DiscoveryProgress)
    (htot : q.modes_total = p.modes_total) (hle : p.modes_tested ≤ q.modes_tested) :
    p.calculate_percentage ≤ q.calculate_percentage := by
  unfold DiscoveryProgress.calculate_percentage
  rw [htot]
  by_cases h0 : p.modes_total = 0
  · simp [h0]
  · simp only [h0, if_false]
    apply pyRound1_mono
    have hpos : (0:ℚ) < (p.modes_total : ℚ) := by
      exact_mod_cast Nat.pos_of_ne_zero h0
    have hc : (p.modes_tested : ℚ) ≤ (q.modes_tested : ℚ) := by exact_mod_cast hle
    have h2 : (p.modes_tested : ℚ) / (p.modes_total : ℚ)
        ≤ (q.modes_tested : ℚ) / (p.modes_total : ℚ) :=
      (div_le_div_iff_of_pos_right hpos).mpr hc
    exact mul_le_mul_of_nonneg_right h2 (by norm_num : (0:ℚ) ≤ 100)

/-- Helper: every progress-dict update re-establishes percentage =
calculate_percentage. -/
theorem applyProgressUpdates_percentage (p : DiscoveryProgress) (u : ProgressUpdates) :
    (applyProgressUpdates p u).percentage
      = (applyProgressUpdates p u).calculate_percentage := rfl

/-- Helper: the percentage formula invariant is preserved by every
update_state call. -/
theorem applyStateUpdates_percentage (s : DiscoveryState) (u : StateUpdates)
    (hs : s.progress.percentage = s.progress.calculate_percentage) :
    (applyStateUpdates s u).progress.percentage
      = (applyStateUpdates s u).progress.calculate_percentage := by
  cases hu : u.progress with
  | none => simp [applyStateUpdates, hu]; exact hs
  | some pu => simp [applyStateUpdates, hu]; exact applyProgressUpdates_percentage s.progress pu

/-- Helper: the percentage formula invariant holds after any sequence of
update_state calls from the initial state. -/
theorem stateAfterUpdates_percentage_aux (s : DiscoveryState)
    (hs : s.progress.percentage = s.progress.calculate_percentage) :
    ∀ us : List StateUpdates,
      ((us.foldl applyStateUpdates s).progress.percentage
        = (us.foldl applyStateUpdates s).progress.calculate_percentage) := by
  intro us
  induction us generalizing s with
  | nil => exact hs
  | cons u rest ih =>
      exact ih (applyStateUpdates s u) (applyStateUpdates_percentage s u hs)

/-- C7 counterexample: replaying the runner's own update sequence for a run
over two spas (each 1 light, a 2-mode plan), the percentage reaches 100 after
the first spa's two mode tests and then drops back to 0 when the second spa's
totals update resets modes_tested/modes_total — the percentage is not
monotonically non-decreasing within a single run. -/
theorem c7_percentage_drops_at_spa_boundary :
    (progressAfter [spaTotalsUpdate, modesTestedUpdate 1, modesTestedUpdate 2]).percentage = 100
    ∧ (progressAfter [spaTotalsUpdate, modesTestedUpdate 1, modesTestedUpdate 2,
        spaTotalsUpdate]).percentage = 0
    ∧ ((0 : ℚ) < 100) := by
  refine ⟨?_, ?_, by norm_num⟩
  · have h100 : pyRound1 (100 : ℚ) = 100 := by
      have hf : halfEvenInt ((100 : ℚ) * 10) = 1000 := by
        norm_num [halfEvenInt]
      rw [pyRound1, hf]
      norm_num
    simp [progressAfter, applyProgressUpdates, DiscoveryProgress.update_percentage,
          DiscoveryProgress.calculate_percentage, spaTotalsUpdate, modesTestedUpdate, h100]
  · have h0 : pyRound1 (0 : ℚ) = 0 := by
      have hf : halfEvenInt ((0 : ℚ) * 10) = 0 := by
        norm_num [halfEvenInt]
      rw [pyRound1, hf]
      norm_num
    simp [progressAfter, applyProgressUpdates, DiscoveryProgress.update_percentage,
          DiscoveryProgress.calculate_percentage, spaTotalsUpdate, modesTestedUpdate, h0]

/-- C7 amended: after every update_state call the percentage equals the
formula (0 when modes_total = 0, round(modes_tested/modes_total*100, 1)
otherwise), and the percentage is non-decreasing under progress updates that
leave modes_total unchanged and do not decrease modes_tested — as within a
single spa's mode loop; it is not monotone across spa boundaries, where the
runner resets both counters to 0. -/
theorem c7_amended_percentage_formula (us : List StateUpdates)
    (p : DiscoveryProgress) (u : ProgressUpdates)
    (hinv : p.percentage = p.calculate_percentage)
    (htot : u.modes_total = none)
    (hmono : u.modes_tested = none
      ∨ ∃ k, u.modes_tested = some k ∧ p.modes_tested ≤ k) :
    ((stateAfterUpdates us).progress.percentage
        = (stateAfterUpdates us).progress.calculate_percentage)
    ∧ p.percentage ≤ (applyProgressUpdates p u).percentage := by
  constructor
  · exact stateAfterUpdates_percentage_aux {} rfl us
  · have h1 : (applyProgressUpdates p u).modes_total = p.modes_total := by
      simp [applyProgressUpdates, DiscoveryProgress.update_percentage, htot]
    have h2 : p.modes_tested ≤ (applyProgressUpdates p u).modes_tested := by
      rcases hmono with hn | ⟨k, hk, hle⟩
      · simp [applyProgressUpdates, DiscoveryProgress.update_percentage, hn]
      · simp [applyProgressUpdates, DiscoveryProgress.update_percentage, hk]
        exact hle
    calc p.percentage = p.calculate_percentage := hinv
      _ ≤ (applyProgressUpdates p u).calculate_percentage :=
          calcPercentage_mono p (applyProgressUpdates p u) h1 h2
      _ = (applyProgressUpdates p u).percentage :=
          (applyProgressUpdates_percentage p u).symm

/-- C7 amended, witness: the empty update history and a single
modes_tested-bump on the initial progress. -/
theorem c7_amended_percentage_formula_witness :
    (({} : DiscoveryProgress).percentage = ({} : DiscoveryProgress).calculate_percentage)
    ∧ ((modesTestedUpdate 1).modes_total = none)
    ∧ ((modesTestedUpdate 1).modes_tested = none
        ∨ ∃ k, (modesTestedUpdate 1).modes_tested = some k
            ∧ ({} : DiscoveryProgress).modes_tested ≤ k)
    ∧ (((stateAfterUpdates []).progress.percentage
          = (stateAfterUpdates []).progress.calculate_percentage)
      ∧ ({} : DiscoveryProgress).percentage
          ≤ (applyProgressUpdates {} (modesTestedUpdate 1)).percentage) :=
  ⟨rfl, rfl, Or.inr ⟨1, rfl, Nat.zero_le 1⟩,
   c7_amended_percentage_formula [] {} (modesTestedUpdate 1) rfl rfl
     (Or.inr ⟨1, rfl, Nat.zero_le 1⟩)⟩

/-- C8 counterexample: get_state's snapshot carries the very same results
reference as the stored state (results=self._state.results is a reference
copy), so clearing the spas dict through the snapshot's results changes what
the stored state's results dereferences to — the snapshot does share mutable
substructure with the internal state. -/
theorem c8_snapshot_shares_results_object :
    (get_state_heap heapFixture storedFixture).2.resultsRef = storedFixture.resultsRef
    ∧ readResults heapFixture storedFixture = some sampleResults
    ∧ readResults
        (writeResultsSpas (get_state_heap heapFixture storedFixture).1
          ((get_state_heap heapFixture storedFixture).2.resultsRef.getD 0) [])
        storedFixture
        = some { sampleResults with spas := [] }
    ∧ ¬ (some { sampleResults with spas := [] } = some sampleResults) :=
  ⟨rfl, rfl, rfl, by decide⟩

/-- C8 amended: the snapshot returned by get_state is independent of the
stored state in everything except results — the progress object is a freshly
allocated copy with equal contents, so mutating the snapshot's progress never
changes the stored progress, and a later update_state that stores new results
rebinds the stored reference without mutating the object the snapshot sees —
but the results object itself is shared by reference between snapshot and
stored state. -/
theorem c8_amended_snapshot_copies (h : MgrHeap) (s : StoredState)
    (p : DiscoveryProgress) (r : DiscoveryResults)
    (hwfp : s.progressRef < h.nextAddr)
    (hwfr : ∀ a, s.resultsRef = some a → a < h.nextAddr) :
    (get_state_heap h s).2.resultsRef = s.resultsRef
    ∧ (get_state_heap h s).2.progressRef ≠ s.progressRef
    ∧ readProgress (get_state_heap h s).1 (get_state_heap h s).2 = readProgress h s
    ∧ readProgress (writeProgressObj (get_state_heap h s).1
        (get_state_heap h s).2.progressRef p) s = readProgress h s
    ∧ readResults (update_results_heap (get_state_heap h s).1 s r).1
        (get_state_heap h s).2 = readResults h s := by
  refine ⟨rfl, (ne_of_lt hwfp).symm, ?_, ?_, ?_⟩
  · simp [get_state_heap, readProgress]
  · simp [writeProgressObj, get_state_heap, readProgress, ne_of_lt hwfp]
  · cases hr : s.resultsRef with
    | none => simp [readResults, update_results_heap, get_state_heap, hr]
    | some a =>
        have ha := hwfr a hr
        have hne : ¬ (a = h.nextAddr + 1) := by omega
        simp [readResults, update_results_heap, get_state_heap, hr, hne]

/-- C8 amended, witness at the concrete heap fixture. -/
theorem c8_amended_snapshot_copies_witness :
    (storedFixture.progressRef < heapFixture.nextAddr)
    ∧ (∀ a, storedFixture.resultsRef = some a → a < heapFixture.nextAddr)
    ∧ ((get_state_heap heapFixture storedFixture).2.resultsRef = storedFixture.resultsRef
      ∧ (get_state_heap heapFixture storedFixture).2.progressRef ≠ storedFixture.progressRef
      ∧ readProgress (get_state_heap heapFixture storedFixture).1
          (get_state_heap heapFixture storedFixture).2 = readProgress heapFixture storedFixture
      ∧ readProgress (writeProgressObj (get_state_heap heapFixture storedFixture).1
          (get_state_heap heapFixture storedFixture).2.progressRef {}) storedFixture
          = readProgress heapFixture storedFixture
      ∧ readResults
          (update_results_heap (get_state_heap heapFixture storedFixture).1 storedFixture
            sampleResults).1
          (get_state_heap heapFixture storedFixture).2
          = readResults heapFixture storedFixture) :=
  ⟨by decide,
   fun a ha => by
     simp [storedFixture] at ha
     simp only [heapFixture]
     omega,
   c8_amended_snapshot_copies heapFixture storedFixture {} sampleResults (by decide)
     (fun a ha => by
       simp [storedFixture] at ha
       simp only [heapFixture]
       omega)⟩

end SmarttubDiscovery
